import Mathlib

/-!
Shallow embedding of the `rss_news` pipeline (SKR6582/CRSS).

The Python modules embedded here are:
  - `rss_news/parser.py`    : `parse_entry` and its helpers;
  - `rss_news/classifier.py`: `is_news_entry`;
  - `rss_news/normalizer.py`: `to_news_item`;
  - `rss_news/dedup.py`     : `deduplicate` / `make_key`;
  - `rss_news/summarizers.py`: `SummarizeOptions`, `build_summarizer`,
    `_truncate`, `_one`, `summarize_items`;
  - `rss_news/core.py`      : the body of `NewsFetcher.fetch` after the
    per-entry `parse_entry` map (raw feed retrieval is an external
    collaborator and is not modelled).

Modelling conventions:
  - Python timestamps (`datetime`) are modelled as `Int` (a UTC instant);
    `time.mktime`/`datetime.fromtimestamp` are modelled as the identity on
    that instant.
  - Python `str` is `String`; `str.strip` is `pstrip`, `str.lower` is
    `plower`, `in` (substring) is `strContains` — list-based equivalents of
    the library functions, chosen so that concrete inputs evaluate.
  - External collaborators (`feedparser._parse_date`, `urllib.urlparse`
    host extraction, and the OpenAI/Gemini network clients) are parameters
    of the embedded functions.
  - Raising an exception is modelled by `Except Unit`.
-/

namespace CRSS

/-- Python `str.lower`, code point by code point (`Char.toLower`; like the
usage in the source, only ASCII letters are affected by the strings involved). -/
def plower (s : String) : String := ⟨s.data.map Char.toLower⟩

/-- Python `str.strip()`: drop whitespace from both ends. -/
def pstrip (s : String) : String :=
  ⟨((s.data.dropWhile Char.isWhitespace).reverse.dropWhile
      Char.isWhitespace).reverse⟩

/-- Occurrence of `needle` as a contiguous run of `hay` (the list-of-code-
points form of the Python test `needle in hay`; the empty needle occurs in
everything). -/
def subArr (needle : List Char) : List Char → Bool
  | [] => needle.isEmpty
  | c :: rest =>
      (decide (needle = (c :: rest).take needle.length)) || subArr needle rest

/-- The Python substring test `k in t`. -/
def strContains (t k : String) : Bool := subArr k.data t.data

/-- A Python value as observed by `parser.parse_entry`: the code inspects
truthiness, `isinstance(_, str)`, `isinstance(_, time.struct_time)`,
`isinstance(_, list)` and `isinstance(_, dict)`, and reads nested dicts only
at the keys `"title"` (source dict) and `"term"` (tag dict).  `vdict`
carries its Python truthiness (whether the dict is non-empty) explicitly;
`vother` stands for any other Python value together with its truthiness. -/
inductive PyVal where
  | vstr (s : String)
  | vtime (t : Int)
  | vlist (l : List PyVal)
  | vdict (ne : Bool) (title : Option PyVal) (term : Option PyVal)
  | vother (b : Bool)

/-- Python truthiness of a `PyVal`. -/
def PyVal.truthy : PyVal → Bool
  | .vstr s => s != ""
  | .vtime _ => true
  | .vlist l => !l.isEmpty
  | .vdict ne _ _ => ne
  | .vother b => b

/-- `a or b` on Python values, where `none` models an absent key
(`dict.get` returning `None`). -/
def pyOr (a b : Option PyVal) : Option PyVal :=
  match a with
  | some v => if v.truthy then some v else b
  | none => b

/-- `x.strip()` applied to the result of an `or`-chain whose last element is
`""`: a string strips to `pstrip`, anything else raises
`AttributeError` (modelled as `Except.error`). -/
def pyStrip (v : Option PyVal) : Except Unit String :=
  match v with
  | some (.vstr s) => .ok (pstrip s)
  | some _ => .error ()
  | none => .error ()

/-- A raw feed entry: the untyped mapping read by `parse_entry`.  Each field
is the value stored under the homonymous key (`idv` stands for the key
`"id"`), `none` meaning the key is absent. -/
structure RawEntry where
  title : Option PyVal := none
  summary : Option PyVal := none
  description : Option PyVal := none
  link : Option PyVal := none
  feedburner_origlink : Option PyVal := none
  idv : Option PyVal := none
  guid : Option PyVal := none
  tags : Option PyVal := none
  source : Option PyVal := none
  published_parsed : Option PyVal := none
  updated_parsed : Option PyVal := none
  created_parsed : Option PyVal := none
  published : Option PyVal := none
  updated : Option PyVal := none
  created : Option PyVal := none
  language : Option PyVal := none
  dc_language : Option PyVal := none
  lang : Option PyVal := none

/-- The canonical record produced by `parse_entry` (a dict with fixed keys
in the source). -/
structure Record where
  title : String := ""
  summary : String := ""
  link : String := ""
  source : String := ""
  published_at : Option Int := none
  language : Option String := none
  category : Option String := none
  guid : Option String := none
deriving DecidableEq, Repr

/-- One step of the first loop of `_to_datetime`: a `*_parsed` field contributes
iff it is a `time.struct_time`; `mktime`/`fromtimestamp` are modelled as the
identity on the instant. -/
def structTime : Option PyVal → Option Int
  | some (.vtime t) => some t
  | _ => none

/-- One step of the fallback loop of `_to_datetime`: a raw string date field is
handed to `feedparser._parse_date` (the external parameter `pd`; `none`
covers both an unparsable date and a raised exception) iff it is a
non-empty string. -/
def strDate (pd : String → Option Int) (v : Option PyVal) : Option Int :=
  match v with
  | some (.vstr s) => if s != "" then pd s else none
  | _ => none

/-- `parser._to_datetime`: `published_parsed` → `updated_parsed` →
`created_parsed`, then the raw `published` → `updated` → `created` strings,
first hit wins, `none` if nothing parses. -/
def _to_datetime (pd : String → Option Int) (e : RawEntry) : Option Int :=
  match structTime e.published_parsed with
  | some t => some t
  | none =>
  match structTime e.updated_parsed with
  | some t => some t
  | none =>
  match structTime e.created_parsed with
  | some t => some t
  | none =>
  match strDate pd e.published with
  | some t => some t
  | none =>
  match strDate pd e.updated with
  | some t => some t
  | none => strDate pd e.created

/-- `parser._get_source`: the embedded source-feed title when the `source`
value is a truthy dict with a non-blank string title; otherwise the network
host (external parameter `netloc`, `""` meaning no host) of
`feedburner_origlink` then `link` when they are non-empty strings;
otherwise `"unknown"`. -/
def _get_source (netloc : String → String) (e : RawEntry) : String :=
  let fromFeedTitle : Option String :=
    match e.source with
    | some (.vdict ne (some (.vstr t)) _) =>
        if ne then (if pstrip t != "" then some (pstrip t) else none) else none
    | _ => none
  let tryHost : Option PyVal → Option String := fun lv =>
    match lv with
    | some (.vstr s) =>
        if s != "" then (let h := netloc s; if h != "" then some h else none)
        else none
    | _ => none
  match fromFeedTitle with
  | some s => s
  | none =>
  match tryHost e.feedburner_origlink with
  | some h => h
  | none =>
  match tryHost e.link with
  | some h => h
  | none => "unknown"

/-- `parser._get_language`: `language or dc_language or lang`, lower-cased
when the value of the chain is a string, else `None`. -/
def _get_language (e : RawEntry) : Option String :=
  match pyOr e.language (pyOr e.dc_language e.lang) with
  | some (.vstr s) => some (plower s)
  | _ => none

/-- The guid loop of `parse_entry`: first of the `"id"` / `"guid"` values
that is a string with a non-blank strip. -/
def pickGuid (idv gv : Option PyVal) : Option String :=
  match idv with
  | some (.vstr s) =>
      if pstrip s != "" then some (pstrip s) else
        match gv with
        | some (.vstr s2) => if pstrip s2 != "" then some (pstrip s2) else none
        | _ => none
  | _ =>
      match gv with
      | some (.vstr s2) => if pstrip s2 != "" then some (pstrip s2) else none
      | _ => none

/-- The category extraction of `parse_entry`: the `"term"` of the first tag
when `tags` is a non-empty list whose head is a dict with a non-blank
string term. -/
def pickCategory (tags : Option PyVal) : Option String :=
  match tags with
  | some (.vlist (.vdict _ _ (some (.vstr term)) :: _)) =>
      if pstrip term != "" then some (pstrip term) else none
  | _ => none

/-- `parser.parse_entry`.  The three `(x or y or "").strip()` chains for
title / summary / link raise when the value of the chain is a truthy non-string
(modelled by `Except.error`); every other field extraction is total. -/
def parse_entry (pd : String → Option Int) (netloc : String → String)
    (e : RawEntry) : Except Unit Record :=
  match pyStrip (pyOr e.title (some (.vstr ""))) with
  | .error err => .error err
  | .ok title =>
  match pyStrip (pyOr e.summary (pyOr e.description (some (.vstr "")))) with
  | .error err => .error err
  | .ok summary =>
  match pyStrip (pyOr e.link (pyOr e.feedburner_origlink (some (.vstr "")))) with
  | .error err => .error err
  | .ok link =>
    .ok { title := title
          summary := summary
          link := link
          source := _get_source netloc e
          published_at := _to_datetime pd e
          language := _get_language e
          category := pickCategory e.tags
          guid := pickGuid e.idv e.guid }

/-! ### classifier.py -/

/-- `_DEFAULT_TITLE_EXCLUDES` (a set in the source; order is irrelevant to
`any`). -/
def DEFAULT_TITLE_EXCLUDES : List String := ["댓글", "공지", "업데이트", "update log"]

/-- `classifier._contains_any`: `t = text.lower(); any(k.lower() in t)`. -/
def _contains_any (text : String) (keywords : List String) : Bool :=
  keywords.any (fun k => strContains (plower text) (plower k))

/-- The local `lang` of the classifier:
`(entry.get("language") or "").strip().lower() or None`. -/
def entryLang (entry : Record) : Option String :=
  if plower (pstrip (entry.language.getD "")) = "" then none
  else some (plower (pstrip (entry.language.getD "")))

/-- `classifier.is_news_entry`.  The source locals `title`, `summary`,
`link`, `category`, `lang` are written inline (`entryLang` for `lang`).
The user-filter parameters keep their Python truthiness: a filter given as
`some ""` / `some []` is inactive, exactly like passing an empty string or
list in Python.  The dead "2nd layer" category-hint block of the source
inspects `_DEFAULT_CATEGORY_HINTS` and then does nothing on either branch,
so it has no counterpart here. -/
def is_news_entry (entry : Record) (language : Option String)
    (categories : Option (List String))
    (include_keywords : Option (List String))
    (exclude_keywords : Option (List String)) : Bool :=
  if entry.published_at.isNone then false
  else if pstrip entry.link = "" then false
  else if (pstrip entry.title).length < 10 then false
  else if _contains_any (pstrip entry.title) DEFAULT_TITLE_EXCLUDES then false
  else if (match language, entryLang entry with
           | some lf, some l => lf != "" && l != plower lf
           | _, _ => false) then false
  else if (match categories with
           | some cats =>
               !cats.isEmpty && pstrip (entry.category.getD "") != "" &&
                 !((cats.map plower).contains
                   (plower (pstrip (entry.category.getD ""))))
           | none => false) then false
  else if (match include_keywords with
           | some kws =>
               !kws.isEmpty &&
                 !( _contains_any (pstrip entry.title) kws ||
                    _contains_any (pstrip entry.summary) kws)
           | none => false) then false
  else if (match exclude_keywords with
           | some kws =>
               !kws.isEmpty &&
                 ( _contains_any (pstrip entry.title) kws ||
                   _contains_any (pstrip entry.summary) kws)
           | none => false) then false
  else true

/-! ### models.py and normalizer.py -/

/-- `models.NewsItem` (frozen dataclass); `published_at : Int` models the
required UTC `datetime`. -/
structure NewsItem where
  title : String
  summary : String
  link : String
  source : String
  published_at : Int
  language : Option String := none
  category : Option String := none
  guid : Option String := none
deriving DecidableEq, Repr

/-- `normalizer.to_news_item`.  On a canonical record the `entry.get(k) or
""` reads reduce to the string fields of the record themselves (`"" or ""` is `""`);
`source` falls back to `"unknown"` when empty; the `ValueError` raised when
`link` or `published_at` is missing is `Except.error ()`. -/
def to_news_item (entry : Record) : Except Unit NewsItem :=
  let source := if entry.source = "" then "unknown" else entry.source
  match entry.published_at with
  | none => .error ()
  | some d =>
      if entry.link = "" then .error ()
      else .ok { title := entry.title
                 summary := entry.summary
                 link := entry.link
                 source := source
                 published_at := d
                 language := entry.language
                 category := entry.category
                 guid := entry.guid }

/-! ### dedup.py -/

/-- The dedup key strings `"guid::" ++ g`, `"link::" ++ l` and
`"ts::" ++ hash (title, source)` are modelled as a sum: the three string
prefixes make the ranges disjoint, concatenation after a fixed prefix is
injective, and the Python `hash` on `(title, source)` pairs is modelled as
the pair itself. -/
inductive DedupKey where
  | kguid (g : String)
  | klink (l : String)
  | kts (title : String) (source : String)
deriving DecidableEq, Repr

/-- Python truthiness of an `Optional[str]`. -/
def optStrTruthy : Option String → Bool
  | some s => s != ""
  | none => false

/-- `dedup.deduplicate.make_key`: guid → link → (title, source) hash. -/
def make_key (it : NewsItem) : DedupKey :=
  if optStrTruthy it.guid then .kguid (it.guid.getD "")
  else if it.link != "" then .klink it.link
  else .kts it.title it.source

/-- The loop of `dedup.deduplicate`, with the `seen` set threaded
explicitly (modelled as a list, membership standing for set membership). -/
def dedupGo (seen : List DedupKey) : List NewsItem → List NewsItem
  | [] => []
  | it :: rest =>
      let key := make_key it
      if key ∈ seen then dedupGo seen rest
      else it :: dedupGo (key :: seen) rest

/-- `dedup.deduplicate`. -/
def deduplicate (items : List NewsItem) : List NewsItem := dedupGo [] items

/-! ### summarizers.py -/

/-- The `Summarizer` protocol: `summarize(title, summary, link, language)`
returns summary text or raises (`Except.error`).  The OpenAI and Gemini
implementations are network collaborators, so concrete providers enter the
embedding as values of this type. -/
def Summarizer : Type := String → String → String → Option String → Except Unit String

/-- `summarizers.NullSummarizer`: echoes back its `summary` argument. -/
def NullSummarizer : Summarizer := fun _ summary _ _ => .ok summary

/-- `summarizers.SummarizeOptions`.  `timeout_sec` (a float handed verbatim
to the provider clients) and `model` (a string handed to provider
construction) do not influence any behaviour modelled here; `model` is kept
for shape, `timeout_sec` is omitted because floats are not modelled. -/
structure SummarizeOptions where
  provider : String := "openai"
  model : Option String := none
  max_input_chars : Int := 4000
  max_workers : Int := 4
  strategy : String := "replace"
  language : Option String := none

/-- `summarizers._truncate`. -/
def _truncate (s : String) (limit : Int) : String :=
  if limit ≤ 0 then s
  else if (s.length : Int) ≤ limit then s
  else s.take limit.toNat

/-- `summarizers.build_summarizer`.  The already-constructed OpenAI and
Gemini collaborators are parameters (their construction—missing package or
API key—raises before any item is processed and is outside this model);
`(options.provider or "").lower()` dispatches on them, everything else
falling to `NullSummarizer`. -/
def build_summarizer (openaiS geminiS : Summarizer) :
    Option SummarizeOptions → Summarizer
  | none => NullSummarizer
  | some options =>
      let provider := plower options.provider
      if provider = "openai" then openaiS
      else if provider = "gemini" ∨ provider = "google" ∨ provider = "googleai"
        then geminiS
      else NullSummarizer

/-- `summarizers.summarize_items._one`: per-item summarization with
fallback.  The provider is called with the truncated `title ++ "\n\n" ++
summary` concatenation as its `summary` argument; a raise or an empty
result falls back to the original summary of the item; the strategy then builds
the new summary, and every non-summary field is copied verbatim. -/
def _one (summarizer : Summarizer) (options : SummarizeOptions)
    (item : NewsItem) : NewsItem :=
  let base := item.title ++ "\n\n" ++ item.summary
  let text := _truncate base options.max_input_chars
  let s0 := match summarizer item.title text item.link options.language with
    | .ok v => v
    | .error _ => item.summary
  let s := if s0 = "" then item.summary else s0
  let new_summary :=
    if options.strategy = "append" then
      if item.summary != "" then item.summary ++ "\n\n[AI 요약]\n" ++ s else s
    else s
  { item with summary := new_summary }

/-- `summarizers.summarize_items`.  `max(1, int(options.max_workers or 1))`
selects the serial or the thread-pool path.  `_one` is deterministic and
total, so the pool path—one task per item, results collected in submission
order—collects exactly the in-order per-item results; the
length-mismatch serial fallback of the source is kept structurally. -/
def summarize_items (openaiS geminiS : Summarizer) (items : List NewsItem)
    (options : SummarizeOptions) : List NewsItem :=
  let summarizer := build_summarizer openaiS geminiS (some options)
  let max_workers : Int :=
    max 1 (if options.max_workers = 0 then 1 else options.max_workers)
  if max_workers = 1 then items.map ( _one summarizer options)
  else
    let out := items.map ( _one summarizer options)
    if out.length ≠ items.length then items.map ( _one summarizer options)
    else out

/-! ### core.py -/

/-- `core.FetchOptions`. -/
structure FetchOptions where
  language : Option String := none
  categories : Option (List String) := none
  include_keywords : Option (List String) := none
  exclude_keywords : Option (List String) := none
  limit : Option Int := none
  start_date : Option Int := none
  end_date : Option Int := none
  summarize : Bool := false
  summarize_options : Option SummarizeOptions := none

/-- The date-range filter of `NewsFetcher.fetch`: active when a start or an
end bound is given; records without `published_at` are dropped, and the
bounds are inclusive (`dt < start` / `dt > end` are skipped). -/
def dateFilter (start_date end_date : Option Int) (l : List Record) :
    List Record :=
  if start_date.isSome || end_date.isSome then
    l.filter (fun e =>
      match e.published_at with
      | none => false
      | some dt =>
          (match start_date with | some s => decide (s ≤ dt) | none => true) &&
          (match end_date with | some en => decide (dt ≤ en) | none => true))
  else l

/-- The classification step of `NewsFetcher.fetch`: keep the parsed records
accepted by `is_news_entry` under the configured filters. -/
def classified_records (opts : FetchOptions) (parsed : List Record) :
    List Record :=
  parsed.filter (fun e =>
    is_news_entry e opts.language opts.categories opts.include_keywords
      opts.exclude_keywords)

/-- The item-building step of `NewsFetcher.fetch`: classification, date
filter, then `to_news_item` with `except Exception: continue` (records
whose build raises are skipped). -/
def built_items (opts : FetchOptions) (parsed : List Record) :
    List NewsItem :=
  (dateFilter opts.start_date opts.end_date
      (classified_records opts parsed)).filterMap
    (fun e => (to_news_item e).toOption)

/-- The recency sort of `NewsFetcher.fetch`:
`items.sort(key=lambda x: x.published_at, reverse=True)`.  The Python
`list.sort` is a stable sort; it is modelled by the stable
`List.mergeSort` under the descending comparison. -/
def sortByDateDesc (items : List NewsItem) : List NewsItem :=
  items.mergeSort (fun a b => decide (b.published_at ≤ a.published_at))

/-- `NewsFetcher.fetch` up to and including the limit truncation:
classify → date filter → build → deduplicate → sort newest-first →
truncate to `limit` when the limit is a positive number. -/
def pre_summarize_items (opts : FetchOptions) (parsed : List Record) :
    List NewsItem :=
  let items := sortByDateDesc (deduplicate (built_items opts parsed))
  match opts.limit with
  | some n => if 0 < n then items.take n.toNat else items
  | none => items

/-- The body of `core.NewsFetcher.fetch` after the per-entry `parse_entry`
map (feed retrieval and parsing precede this in the source): the staged
pipeline, with the optional summarization stage applied last,
`summarize_options or SummarizeOptions()` supplying the defaults. -/
def fetch_pipeline (openaiS geminiS : Summarizer) (opts : FetchOptions)
    (parsed : List Record) : List NewsItem :=
  let items := pre_summarize_items opts parsed
  if opts.summarize then
    summarize_items openaiS geminiS items (opts.summarize_options.getD {})
  else items

/-! ### Theorems -/

/-- Both worker paths of `summarize_items` collect the in-order per-item
results, so the stage is the map of `_one` over the input. -/
theorem summarize_items_eq_map (o g : Summarizer) (items : List NewsItem)
    (options : SummarizeOptions) :
    summarize_items o g items options =
      items.map ( _one (build_summarizer o g (some options)) options) := by
  unfold summarize_items
  split
  · rfl
  · simp

/-- A provider that always raises. -/
def failingSummarizer : Summarizer := fun _ _ _ _ => .error ()

/-- C1: the claim states that with an unrecognized provider the stage
returns every item unchanged, summary included.  Evaluating the stage on a
one-item list with provider `"unknown"` and the `"replace"` strategy shows
the output summary is `"T\n\nS"` — the truncated `title ++ "\n\n" ++
summary` concatenation that `_one` hands to the provider and that
`NullSummarizer` echoes back — and not the original summary `"S"`. -/
theorem C1_null_provider_not_noop :
    summarize_items NullSummarizer NullSummarizer
        [{ title := "T", summary := "S", link := "http://x.test/a",
           source := "src", published_at := 0 }]
        { provider := "unknown", strategy := "replace",
          max_input_chars := 0, max_workers := 1 } =
      [{ title := "T", summary := "T\n\nS", link := "http://x.test/a",
         source := "src", published_at := 0 }] ∧
    ("T\n\nS" : String) ≠ "S" :=
  ⟨rfl, by decide⟩

/-- C2 counterexample: an item with summary `"S"` processed under the
`"append"` strategy by a provider that always raises comes out with summary
`"S\n\n[AI 요약]\nS"`, not with its original summary unchanged — the
original is substituted for the provider output and then appended to
itself. -/
theorem C2_append_failure_changes_summary :
    (summarize_items failingSummarizer failingSummarizer
        [{ title := "T", summary := "S", link := "http://x.test/a",
           source := "src", published_at := 0 }]
        { provider := "openai", strategy := "append",
          max_input_chars := 0, max_workers := 1 }).map NewsItem.summary =
      ["S\n\n[AI 요약]\nS"] ∧
    ("S\n\n[AI 요약]\nS" : String) ≠ "S" :=
  ⟨rfl, by decide⟩

/-- Per-item form of the failure fallback: a raising or empty-content
provider call leaves `_one` substituting the original summary of the item for
the provider output. -/
theorem one_failure_falls_back (summ : Summarizer)
    (options : SummarizeOptions) (item : NewsItem)
    (hfail :
      summ item.title
          ( _truncate (item.title ++ "\n\n" ++ item.summary)
            options.max_input_chars) item.link options.language = .error () ∨
      summ item.title
          ( _truncate (item.title ++ "\n\n" ++ item.summary)
            options.max_input_chars) item.link options.language = .ok "") :
    _one summ options item =
      { item with summary :=
          if options.strategy = "append" ∧ item.summary ≠ ""
          then item.summary ++ "\n\n[AI 요약]\n" ++ item.summary
          else item.summary } := by
  rcases hfail with h | h <;>
    simp only [ _one, h] <;>
    by_cases hstrat : options.strategy = "append" <;>
    by_cases hsum : item.summary = "" <;>
    simp [hstrat, hsum]

/-- C2 (amended): when the provider call for an item fails — raises, or
returns empty content — the original summary of the item is substituted for the
provider output, and the failure never escapes the (total) stage: under
`"replace"` the output summary is the original unchanged, under `"append"`
with a non-empty original it is the original, the separator, and the
original again; all other fields are copied verbatim. -/
theorem C2_failure_falls_back (o g : Summarizer) (options : SummarizeOptions)
    (items : List NewsItem) (i : Nat) (hi : i < items.length)
    (hj : i < (summarize_items o g items options).length)
    (hfail :
      build_summarizer o g (some options) (items.get ⟨i, hi⟩).title
          ( _truncate ((items.get ⟨i, hi⟩).title ++ "\n\n" ++
              (items.get ⟨i, hi⟩).summary) options.max_input_chars)
          (items.get ⟨i, hi⟩).link options.language = .error () ∨
      build_summarizer o g (some options) (items.get ⟨i, hi⟩).title
          ( _truncate ((items.get ⟨i, hi⟩).title ++ "\n\n" ++
              (items.get ⟨i, hi⟩).summary) options.max_input_chars)
          (items.get ⟨i, hi⟩).link options.language = .ok "") :
    (summarize_items o g items options).get ⟨i, hj⟩ =
      { items.get ⟨i, hi⟩ with summary :=
          if options.strategy = "append" ∧ (items.get ⟨i, hi⟩).summary ≠ ""
          then (items.get ⟨i, hi⟩).summary ++ "\n\n[AI 요약]\n" ++
            (items.get ⟨i, hi⟩).summary
          else (items.get ⟨i, hi⟩).summary } := by
  have h2 : (summarize_items o g items options).get ⟨i, hj⟩ =
      _one (build_summarizer o g (some options)) options
        (items.get ⟨i, hi⟩) := by
    simp [List.get_eq_getElem, summarize_items_eq_map]
  rw [h2]
  exact one_failure_falls_back _ _ _ hfail

/-- Witness for C2 (amended) at a concrete one-item batch with an
always-raising provider. -/
theorem C2_failure_falls_back_witness :
    (summarize_items failingSummarizer failingSummarizer
        [{ title := "T", summary := "S", link := "http://x.test/a",
           source := "src", published_at := 0 }]
        { provider := "openai", strategy := "append",
          max_input_chars := 0, max_workers := 1 }).get ⟨0, by decide⟩ =
      { title := "T", summary := "S\n\n[AI 요약]\nS",
        link := "http://x.test/a", source := "src", published_at := 0 } := by
  have h := C2_failure_falls_back failingSummarizer failingSummarizer
    { provider := "openai", strategy := "append",
      max_input_chars := 0, max_workers := 1 }
    [{ title := "T", summary := "S", link := "http://x.test/a",
       source := "src", published_at := 0 }]
    0 (by decide) (by decide) (Or.inl rfl)
  simpa using h

/-- C3: for any provider behaviour (in particular one whose every call
fails) and any worker count `max_workers ≥ 1`, the output of the stage has the
length of the input and its `i`-th item agrees with the `i`-th input item on
every field except possibly `summary`. -/
theorem C3_length_and_order (o g : Summarizer) (options : SummarizeOptions)
    (items : List NewsItem) (hw : 1 ≤ options.max_workers) :
    (summarize_items o g items options).length = items.length ∧
    ∀ (i : Nat) (hi : i < items.length)
      (hj : i < (summarize_items o g items options).length),
      ((summarize_items o g items options).get ⟨i, hj⟩).title =
          (items.get ⟨i, hi⟩).title ∧
      ((summarize_items o g items options).get ⟨i, hj⟩).link =
          (items.get ⟨i, hi⟩).link ∧
      ((summarize_items o g items options).get ⟨i, hj⟩).source =
          (items.get ⟨i, hi⟩).source ∧
      ((summarize_items o g items options).get ⟨i, hj⟩).published_at =
          (items.get ⟨i, hi⟩).published_at ∧
      ((summarize_items o g items options).get ⟨i, hj⟩).language =
          (items.get ⟨i, hi⟩).language ∧
      ((summarize_items o g items options).get ⟨i, hj⟩).category =
          (items.get ⟨i, hi⟩).category ∧
      ((summarize_items o g items options).get ⟨i, hj⟩).guid =
          (items.get ⟨i, hi⟩).guid := by
  refine ⟨by simp [summarize_items_eq_map], ?_⟩
  intro i hi hj
  simp [List.get_eq_getElem, summarize_items_eq_map, _one]

/-- Witness for C3 at a concrete two-item batch with an always-raising
provider and four workers. -/
theorem C3_length_and_order_witness :
    (summarize_items failingSummarizer failingSummarizer
        [{ title := "A title", summary := "a", link := "http://x.test/a",
           source := "s1", published_at := 1 },
         { title := "B title", summary := "b", link := "http://x.test/b",
           source := "s2", published_at := 2 }]
        { provider := "openai", max_workers := 4 }).length = 2 :=
  (C3_length_and_order failingSummarizer failingSummarizer
    { provider := "openai", max_workers := 4 }
    [{ title := "A title", summary := "a", link := "http://x.test/a",
       source := "s1", published_at := 1 },
     { title := "B title", summary := "b", link := "http://x.test/b",
       source := "s2", published_at := 2 }] (by decide)).1

/-- `dedupGo` returns a sublist of its input (survivors in input order). -/
theorem dedupGo_sublist (seen : List DedupKey) (l : List NewsItem) :
    (dedupGo seen l).Sublist l := by
  induction l generalizing seen with
  | nil => simp [dedupGo]
  | cons x rest ih =>
    simp only [dedupGo]
    by_cases hk : make_key x ∈ seen
    · rw [if_pos hk]; exact (ih seen).cons x
    · rw [if_neg hk]; exact (ih _).cons₂ x

/-- No survivor of `dedupGo` carries a key already in `seen`. -/
theorem dedupGo_key_not_seen (seen : List DedupKey) (l : List NewsItem) :
    ∀ it ∈ dedupGo seen l, make_key it ∉ seen := by
  induction l generalizing seen with
  | nil => simp [dedupGo]
  | cons x rest ih =>
    simp only [dedupGo]
    by_cases hk : make_key x ∈ seen
    · rw [if_pos hk]; exact ih seen
    · rw [if_neg hk]
      intro it hin
      rcases List.mem_cons.mp hin with rfl | h
      · exact hk
      · intro hc
        exact ih (make_key x :: seen) it h (List.mem_cons_of_mem _ hc)

/-- The keys of the survivors of `dedupGo` are pairwise distinct. -/
theorem dedupGo_keys_nodup (seen : List DedupKey) (l : List NewsItem) :
    ((dedupGo seen l).map make_key).Nodup := by
  induction l generalizing seen with
  | nil => simp [dedupGo]
  | cons x rest ih =>
    simp only [dedupGo]
    by_cases hk : make_key x ∈ seen
    · rw [if_pos hk]; exact ih seen
    · rw [if_neg hk]
      simp only [List.map_cons, List.nodup_cons]
      refine ⟨?_, ih _⟩
      intro hmem
      rcases List.mem_map.mp hmem with ⟨it, hit, hkey⟩
      exact dedupGo_key_not_seen _ _ it hit
        (by rw [hkey]; exact List.mem_cons_self _ _)

/-- The key of every input item is accounted for: it was already seen, or some
survivor carries it. -/
theorem dedupGo_key_covered (seen : List DedupKey) (l : List NewsItem) :
    ∀ it ∈ l,
      make_key it ∈ seen ∨ make_key it ∈ (dedupGo seen l).map make_key := by
  induction l generalizing seen with
  | nil => simp
  | cons x rest ih =>
    intro it hit
    simp only [dedupGo]
    by_cases hk : make_key x ∈ seen
    · rw [if_pos hk]
      rcases List.mem_cons.mp hit with rfl | h
      · exact Or.inl hk
      · exact ih seen it h
    · rw [if_neg hk]
      rcases List.mem_cons.mp hit with rfl | h
      · exact Or.inr (by simp)
      · rcases ih (make_key x :: seen) it h with hs | ho
        · rcases List.mem_cons.mp hs with heq | hs2
          · exact Or.inr (by simp [heq])
          · exact Or.inl hs2
        · exact Or.inr (List.mem_cons_of_mem _ ho)

/-- Each survivor of `dedupGo` is the first input item bearing its key. -/
theorem dedupGo_find (seen : List DedupKey) (l : List NewsItem) :
    ∀ it ∈ dedupGo seen l,
      l.find? (fun x => make_key x == make_key it) = some it := by
  induction l generalizing seen with
  | nil => simp [dedupGo]
  | cons x rest ih =>
    intro it hit
    simp only [dedupGo] at hit
    by_cases hk : make_key x ∈ seen
    · rw [if_pos hk] at hit
      have hne : ¬ (make_key x == make_key it) = true := by
        simp only [beq_iff_eq]
        intro he
        exact dedupGo_key_not_seen seen rest it hit (he ▸ hk)
      rw [@List.find?_cons_of_neg _ (fun y => make_key y == make_key it) x
        rest hne]
      exact ih seen it hit
    · rw [if_neg hk] at hit
      rcases List.mem_cons.mp hit with rfl | h
      · rw [@List.find?_cons_of_pos _ (fun y => make_key y == make_key it)
          it rest (by simp)]
      · have hne : ¬ (make_key x == make_key it) = true := by
          simp only [beq_iff_eq]
          intro he
          exact dedupGo_key_not_seen _ rest it h
            (by rw [← he]; exact List.mem_cons_self _ _)
        rw [@List.find?_cons_of_neg _ (fun y => make_key y == make_key it) x
          rest hne]
        exact ih _ it h

/-- C4: `deduplicate` keeps exactly the first occurrence, in input order,
of each key of `make_key` (guid when non-empty, else link when non-empty,
else the (title, source) hash): the survivors form a sublist of the input
with pairwise-distinct keys; every input key is represented; each survivor
is the first input item with its key; no two distinct survivors share a
non-empty guid; and two items with the same link, one with a non-empty guid
and one without, get distinct keys and both survive deduplication of the
pair. -/
theorem C4_dedup_first_occurrence (items : List NewsItem) :
    (deduplicate items).Sublist items ∧
    ((deduplicate items).map make_key).Nodup ∧
    (∀ it ∈ items, make_key it ∈ (deduplicate items).map make_key) ∧
    (∀ it ∈ deduplicate items,
      items.find? (fun x => make_key x == make_key it) = some it) ∧
    (∀ x ∈ deduplicate items, ∀ y ∈ deduplicate items,
      x ≠ y → optStrTruthy x.guid → x.guid ≠ y.guid) ∧
    (∀ a b : NewsItem, a.link = b.link → optStrTruthy a.guid →
      ¬ optStrTruthy b.guid →
      make_key a ≠ make_key b ∧ deduplicate [a, b] = [a, b]) := by
  refine ⟨dedupGo_sublist [] items, dedupGo_keys_nodup [] items, ?_,
    dedupGo_find [] items, ?_, ?_⟩
  · intro it hit
    rcases dedupGo_key_covered [] items it hit with hs | ho
    · simp at hs
    · exact ho
  · intro x hx y hy hxy hguid heq
    apply hxy
    have hkeq : make_key x = make_key y := by
      unfold make_key
      rw [if_pos hguid, if_pos (heq ▸ hguid), heq]
    exact List.inj_on_of_nodup_map (dedupGo_keys_nodup [] items) hx hy hkeq
  · intro a b hlink hga hgb
    have hne : make_key a ≠ make_key b := by
      unfold make_key
      rw [if_pos hga, if_neg hgb]
      split <;> simp
    refine ⟨hne, ?_⟩
    simp [deduplicate, dedupGo, Ne.symm hne]

/-- Witness for the conditional part of C4, at the scenario given in the spec: same
link `"https://x.test/a"`, guids `"g1"` versus absent — both survive. -/
theorem C4_dedup_first_occurrence_witness :
    deduplicate
        [{ title := "with guid", summary := "", link := "https://x.test/a",
           source := "s", published_at := 0, guid := some "g1" },
         { title := "without guid", summary := "", link := "https://x.test/a",
           source := "s", published_at := 0, guid := none }] =
      [{ title := "with guid", summary := "", link := "https://x.test/a",
         source := "s", published_at := 0, guid := some "g1" },
       { title := "without guid", summary := "", link := "https://x.test/a",
         source := "s", published_at := 0, guid := none }] :=
  ((C4_dedup_first_occurrence []).2.2.2.2.2
    { title := "with guid", summary := "", link := "https://x.test/a",
      source := "s", published_at := 0, guid := some "g1" }
    { title := "without guid", summary := "", link := "https://x.test/a",
      source := "s", published_at := 0, guid := none }
    rfl (by decide) (by decide)).2

/-- A raw-entry field value that the `(x or ... or "").strip()` chains of
`parse_entry` handle without raising: absent, a string, or any falsy
value.  A truthy non-string raises `AttributeError` at `.strip()`. -/
def safeStrField : Option PyVal → Prop
  | none => True
  | some (.vstr _) => True
  | some v => v.truthy = false

/-- On a `some` head, `pyOr` is the truthiness test. -/
theorem pyOr_some (v : PyVal) (b : Option PyVal) :
    pyOr (some v) b = if v.truthy then some v else b := rfl

/-- A strip chain whose head is a safe field reduces to a successful strip
whenever its tail does. -/
theorem pyStrip_pyOr_ok (a b : Option PyVal) (ha : safeStrField a)
    (hb : ∃ s, pyStrip b = .ok s) : ∃ s, pyStrip (pyOr a b) = .ok s := by
  obtain ⟨s0, hs0⟩ := hb
  match a, ha with
  | none, _ => exact ⟨s0, hs0⟩
  | some (.vstr s), _ =>
      by_cases h : (PyVal.vstr s).truthy = true
      · exact ⟨pstrip s, by rw [pyOr_some, if_pos h]; rfl⟩
      · exact ⟨s0, by rw [pyOr_some, if_neg h]; exact hs0⟩
  | some (.vtime t), ha =>
      exact absurd ha (by simp [safeStrField, PyVal.truthy])
  | some (.vlist l), ha =>
      exact ⟨s0, by
        rw [pyOr_some,
          if_neg (by simp [show PyVal.truthy (.vlist l) = false from ha])]
        exact hs0⟩
  | some (.vdict ne ti te), ha =>
      exact ⟨s0, by
        rw [pyOr_some,
          if_neg (by simp [show PyVal.truthy (.vdict ne ti te) = false from ha])]
        exact hs0⟩
  | some (.vother bb), ha =>
      exact ⟨s0, by
        rw [pyOr_some,
          if_neg (by simp [show PyVal.truthy (.vother bb) = false from ha])]
        exact hs0⟩

/-- C5 counterexample: a raw entry whose `title` value is a truthy
non-string (any truthy object that is not a `str`, e.g. the integer `123`)
makes `parse_entry` raise at `(entry.get("title") or "").strip()` — the
Entry Normalizer does fail on this malformed record instead of degrading
the field. -/
theorem C5_nonstring_title_raises :
    parse_entry (fun _ => none) (fun _ => "")
      { title := some (.vother true) } = .error () := rfl

/-- C5 (amended): for every raw entry whose `title`, `summary`,
`description`, `link` and `feedburner_origlink` values are each absent, a
string, or falsy, `parse_entry` never fails — for arbitrary (including
arbitrarily malformed) values of every other field and arbitrary behaviour
of the external date parser and host extractor, every malformed field
degrading to empty/absent (in particular `published_at` is simply absent
when no date field parses). -/
theorem C5_parse_entry_total (pd : String → Option Int)
    (netloc : String → String) (e : RawEntry)
    (h1 : safeStrField e.title) (h2 : safeStrField e.summary)
    (h3 : safeStrField e.description) (h4 : safeStrField e.link)
    (h5 : safeStrField e.feedburner_origlink) :
    (parse_entry pd netloc e).isOk = true := by
  obtain ⟨t, ht⟩ :=
    pyStrip_pyOr_ok e.title (some (.vstr "")) h1 ⟨"", rfl⟩
  obtain ⟨s, hs⟩ :=
    pyStrip_pyOr_ok e.summary (pyOr e.description (some (.vstr ""))) h2
      (pyStrip_pyOr_ok e.description (some (.vstr "")) h3 ⟨"", rfl⟩)
  obtain ⟨l, hl⟩ :=
    pyStrip_pyOr_ok e.link (pyOr e.feedburner_origlink (some (.vstr ""))) h4
      (pyStrip_pyOr_ok e.feedburner_origlink (some (.vstr "")) h5 ⟨"", rfl⟩)
  simp [parse_entry, ht, hs, hl, Except.isOk, Except.toBool]

/-- Witness for C5 (amended): an entry whose tags, dates, source and
language fields are all malformed (wrong types, unparsable strings) and
whose title is a falsy non-string still normalizes successfully. -/
theorem C5_parse_entry_total_witness :
    (parse_entry (fun _ => none) (fun _ => "")
      { title := some (.vother false),
        summary := some (.vstr "  a summary  "),
        tags := some (.vother true),
        source := some (.vtime 7),
        published_parsed := some (.vstr "not-a-struct-time"),
        published := some (.vstr "not-a-date"),
        language := some (.vlist []) }).isOk = true :=
  C5_parse_entry_total (fun _ => none) (fun _ => "")
    { title := some (.vother false),
      summary := some (.vstr "  a summary  "),
      tags := some (.vother true),
      source := some (.vtime 7),
      published_parsed := some (.vstr "not-a-struct-time"),
      published := some (.vstr "not-a-date"),
      language := some (.vlist []) }
    rfl trivial trivial trivial trivial

/-- C6: the Classifier rejects — under every filter configuration — any
record with no `published_at`, a blank link, a stripped title shorter than
10 characters, or a title containing an exclusion-vocabulary word
case-insensitively; in particular any record titled `"공지"` is rejected
(its length 2 falls under the length gate) regardless of the user
filters. -/
theorem C6_structural_rejects :
    (∀ (entry : Record) (language : Option String)
        (categories include_keywords exclude_keywords : Option (List String)),
      (entry.published_at = none ∨ pstrip entry.link = "" ∨
        (pstrip entry.title).length < 10 ∨
        _contains_any (pstrip entry.title) DEFAULT_TITLE_EXCLUDES = true) →
      is_news_entry entry language categories include_keywords
        exclude_keywords = false) ∧
    (∀ (entry : Record) (language : Option String)
        (categories include_keywords exclude_keywords : Option (List String)),
      entry.title = "공지" →
      is_news_entry entry language categories include_keywords
        exclude_keywords = false) := by
  have main : ∀ (entry : Record) (language : Option String)
      (categories inc exc : Option (List String)),
      (entry.published_at = none ∨ pstrip entry.link = "" ∨
        (pstrip entry.title).length < 10 ∨
        _contains_any (pstrip entry.title) DEFAULT_TITLE_EXCLUDES = true) →
      is_news_entry entry language categories inc exc = false := by
    intro entry language categories inc exc h
    unfold is_news_entry
    split_ifs with h1 h2 h3 h4 h5 h6 h7 h8 <;> try rfl
    rcases h with h | h | h | h
    · exact absurd (by simp [h]) h1
    · exact absurd h h2
    · exact absurd h h3
    · exact absurd h h4
  refine ⟨main, ?_⟩
  intro entry language categories inc exc h
  exact main entry language categories inc exc
    (Or.inr (Or.inr (Or.inl (by rw [h]; decide))))

/-- Witness for C6 at the scenario record of the spec titled `"공지"` (which
also has a valid link and timestamp, so only the length gate fires). -/
theorem C6_structural_rejects_witness :
    is_news_entry
      { title := "공지", link := "https://x.test/a", published_at := some 0 }
      none none none none = false :=
  C6_structural_rejects.2
    { title := "공지", link := "https://x.test/a", published_at := some 0 }
    none none none none rfl

/-- C7: in a fetch run with a positive limit and summarization enabled,
the whole pipeline output is the Summarization Stage applied to a list of
at most `limit` items — truncation happens before summarization, so the
stage (and hence the provider) sees at most `limit` items. -/
theorem C7_limit_before_summarize (o g : Summarizer) (opts : FetchOptions)
    (parsed : List Record) (n : Int) (hl : opts.limit = some n) (hn : 0 < n)
    (hs : opts.summarize = true) :
    ∃ L : List NewsItem, L.length ≤ n.toNat ∧
      fetch_pipeline o g opts parsed =
        summarize_items o g L (opts.summarize_options.getD {}) := by
  refine ⟨pre_summarize_items opts parsed, ?_, by simp [fetch_pipeline, hs]⟩
  simp only [pre_summarize_items, hl]
  rw [if_pos hn]
  exact List.length_take_le _ _

/-- Witness for C7 with limit 1 and summarization on, at an empty parsed
batch and the null provider. -/
theorem C7_limit_before_summarize_witness :
    ∃ L : List NewsItem, L.length ≤ (1 : Int).toNat ∧
      fetch_pipeline NullSummarizer NullSummarizer
          { limit := some 1, summarize := true } [] =
        summarize_items NullSummarizer NullSummarizer L
          (({ limit := some 1, summarize := true } :
            FetchOptions).summarize_options.getD {}) :=
  C7_limit_before_summarize NullSummarizer NullSummarizer
    { limit := some 1, summarize := true } [] 1 rfl (by decide) rfl

/-- C8: the recency sort of the pipeline (`sortByDateDesc`, used by
`fetch_pipeline` on the deduplicated items) is a permutation of its input,
orders it by `published_at` descending, and is stable: any two items in
input order with equal timestamps stay in that relative order. -/
theorem C8_sort_desc_stable (items : List NewsItem) :
    (sortByDateDesc items).Perm items ∧
    (sortByDateDesc items).Pairwise
      (fun a b => b.published_at ≤ a.published_at) ∧
    ∀ a b : NewsItem, [a, b].Sublist items →
      a.published_at = b.published_at →
      [a, b].Sublist (sortByDateDesc items) := by
  have htrans : ∀ a b c : NewsItem,
      (fun x y : NewsItem => decide (y.published_at ≤ x.published_at)) a b →
      (fun x y : NewsItem => decide (y.published_at ≤ x.published_at)) b c →
      (fun x y : NewsItem => decide (y.published_at ≤ x.published_at)) a c := by
    intro a b c h1 h2
    simp only [decide_eq_true_eq] at h1 h2 ⊢
    exact le_trans h2 h1
  have htotal : ∀ a b : NewsItem,
      ((fun x y : NewsItem => decide (y.published_at ≤ x.published_at)) a b ||
       (fun x y : NewsItem => decide (y.published_at ≤ x.published_at)) b a) := by
    intro a b
    simp only [Bool.or_eq_true, decide_eq_true_eq]
    exact le_total b.published_at a.published_at
  refine ⟨List.mergeSort_perm items _, ?_, ?_⟩
  · exact (List.sorted_mergeSort htrans htotal items).imp
      (fun h => by simpa using h)
  · intro a b hsub heq
    exact List.pair_sublist_mergeSort htrans htotal (by simp [heq]) hsub

/-- Witness for the stability clause of C8 at a concrete two-item tie. -/
theorem C8_sort_desc_stable_witness :
    [({ title := "first", summary := "", link := "http://a", source := "s",
        published_at := 5 } : NewsItem),
     ({ title := "second", summary := "", link := "http://b", source := "s",
        published_at := 5 } : NewsItem)].Sublist
      (sortByDateDesc
        [{ title := "first", summary := "", link := "http://a", source := "s",
           published_at := 5 },
         { title := "second", summary := "", link := "http://b", source := "s",
           published_at := 5 }]) :=
  (C8_sort_desc_stable
      [{ title := "first", summary := "", link := "http://a", source := "s",
         published_at := 5 },
       { title := "second", summary := "", link := "http://b", source := "s",
         published_at := 5 }]).2.2
    { title := "first", summary := "", link := "http://a", source := "s",
      published_at := 5 }
    { title := "second", summary := "", link := "http://b", source := "s",
      published_at := 5 }
    (List.Sublist.refl _) rfl

/-- C9: the Item Builder fails exactly when the record `link` is empty or
its `published_at` is absent; on success every field of the record is
carried over verbatim, except that an empty `source` becomes `"unknown"`
(`title`/`summary` are always present on a canonical record, so their
absence defaults are vacuous there). -/
theorem C9_builder_iff_and_verbatim (entry : Record) :
    ((to_news_item entry).isOk = false ↔
      (entry.link = "" ∨ entry.published_at = none)) ∧
    (∀ item : NewsItem, to_news_item entry = .ok item →
      item.title = entry.title ∧ item.summary = entry.summary ∧
      item.link = entry.link ∧
      item.source = (if entry.source = "" then "unknown" else entry.source) ∧
      entry.published_at = some item.published_at ∧
      item.language = entry.language ∧ item.category = entry.category ∧
      item.guid = entry.guid) := by
  constructor
  · cases hpa : entry.published_at <;>
      by_cases hl : entry.link = "" <;>
      simp [to_news_item, hpa, hl, Except.isOk, Except.toBool]
  · intro item hok
    cases hpa : entry.published_at with
    | none => simp [to_news_item, hpa] at hok
    | some d =>
      by_cases hl : entry.link = ""
      · simp [to_news_item, hpa, hl] at hok
      · simp only [to_news_item, hpa] at hok
        rw [if_neg hl] at hok
        cases hok
        simp

/-- Witness for the verbatim clause of C9 at a concrete record with an empty
source. -/
theorem C9_builder_iff_and_verbatim_witness :
    (to_news_item
      { title := "t", summary := "s", link := "http://a", source := "",
        published_at := some 5, guid := some "g" }).isOk = false ↔
      (("http://a" : String) = "" ∨
        (some (5 : Int) : Option Int) = none) :=
  (C9_builder_iff_and_verbatim
    { title := "t", summary := "s", link := "http://a", source := "",
      published_at := some 5, guid := some "g" }).1

/-- Discriminator for the weakest dedup key rule (the (title, source)
hash). -/
def DedupKey.isHashKey : DedupKey → Bool
  | .kts _ _ => true
  | _ => false

/-- Successful builds carry a non-empty link. -/
theorem to_news_item_link_ne (entry : Record) (item : NewsItem)
    (h : to_news_item entry = .ok item) : item.link ≠ "" := by
  cases hpa : entry.published_at with
  | none => simp [to_news_item, hpa] at h
  | some d =>
    by_cases hl : entry.link = ""
    · simp [to_news_item, hpa, hl] at h
    · simp only [to_news_item, hpa] at h
      rw [if_neg hl] at h
      cases h
      simpa using hl

/-- C10: every item the Item Builder constructs has a non-empty link, and
consequently every item reaching the Deduplicator inside a fetch run (the
`built_items` list that `fetch_pipeline` deduplicates) gets a guid- or
link-based key — the (title, source) hash rule is never exercised in the
pipeline. -/
theorem C10_no_hash_keys_in_pipeline (opts : FetchOptions)
    (parsed : List Record) :
    (∀ (entry : Record) (item : NewsItem), to_news_item entry = .ok item →
      item.link ≠ "") ∧
    (∀ it ∈ built_items opts parsed, (make_key it).isHashKey = false) := by
  refine ⟨to_news_item_link_ne, ?_⟩
  intro it hit
  obtain ⟨e, -, he⟩ := List.mem_filterMap.mp hit
  have hok : to_news_item e = .ok it := by
    cases h : to_news_item e <;> simp [h, Except.toOption] at he
    rw [he]
  have hlink := to_news_item_link_ne e it hok
  unfold make_key
  by_cases hg : optStrTruthy it.guid = true
  · rw [if_pos hg]; rfl
  · rw [if_neg hg, if_pos (by simpa using hlink)]; rfl

/-- Witness for C10 at a concrete one-record fetch whose item survives to
deduplication. -/
theorem C10_no_hash_keys_in_pipeline_witness :
    (make_key
      { title := "a real news title", summary := "", link := "http://a",
        source := "unknown", published_at := 5 }).isHashKey = false :=
  (C10_no_hash_keys_in_pipeline {}
      [{ title := "a real news title", link := "http://a",
         published_at := some 5 }]).2
    { title := "a real news title", summary := "", link := "http://a",
      source := "unknown", published_at := 5 }
    (by decide)

end CRSS
